import Mathlib

/-!
Verification development for the image-optimization-service repository.

The definitions below are a shallow embedding of the TypeScript sources:

* TimeToLiveDBService (src/time-to-live-db): an insertion-ordered map from
  string keys to values with absolute expiry instants; times are naturals
  counting milliseconds, mirroring Date.now.
* ClientContextService (src/client-context): the typed facade storing
  controller-params contexts with merge-on-write.
* optimizeImageWorker (src/image-optimization/workers): the sharp pipeline
  abstracted over a deterministic codec record.
* ImageOptimizationController / ImageOptimizationService /
  ImageUploadService: the accept path and the asynchronous arm, the latter
  modelled as a function producing an explicit event trace.
-/

namespace ImageOpt

/-- Byte buffers are modelled as lists of naturals; only lengths and
equality of buffers matter to the claims under study. -/
abbrev Buf := List Nat

/-! ## TimeToLiveDBService (part_008) -/

/-- Entry of the TTL map: a value together with its absolute expiry
instant in milliseconds, mirroring the TTLItem interface. -/
structure TTLItem (α : Type) where
  value : α
  expiresAt : Nat
  deriving Repr, DecidableEq

/-- Lookup in an insertion-ordered association list, as Map.get. -/
def mapGet {α : Type} (m : List (String × TTLItem α)) (k : String) :
    Option (TTLItem α) :=
  match m with
  | [] => none
  | (k2, v) :: rest => if k2 = k then some v else mapGet rest k

/-- Insertion respecting JS Map semantics: an existing key is overwritten
in place, a new key is appended at the end. -/
def mapSet {α : Type} (m : List (String × TTLItem α)) (k : String)
    (v : TTLItem α) : List (String × TTLItem α) :=
  match m with
  | [] => [(k, v)]
  | (k2, v2) :: rest =>
      if k2 = k then (k, v) :: rest else (k2, v2) :: mapSet rest k v

/-- Removal of a key, as Map.delete. -/
def mapDelete {α : Type} (m : List (String × TTLItem α)) (k : String) :
    List (String × TTLItem α) :=
  m.filter (fun p => p.1 != k)

/-- State of TimeToLiveDBService: the backing Map. -/
structure TTLStore (α : Type) where
  storage : List (String × TTLItem α)
  deriving Repr, DecidableEq

def TTLStore.empty {α : Type} : TTLStore α := ⟨[]⟩

/-- Keys of the backing map never repeat; every store reachable through
the service operations satisfies this. -/
def TTLStore.wf {α : Type} (s : TTLStore α) : Prop :=
  (s.storage.map Prod.fst).Nodup

/-- Effective ttl in seconds: the source computes ttl || defaultTTL, so a
missing ttl and a zero ttl both fall back to the default. -/
def effTTL (ttl : Option Nat) (defaultTTL : Nat) : Nat :=
  match ttl with
  | none => defaultTTL
  | some 0 => defaultTTL
  | some n => n

/-- TimeToLiveDBService.set: stores the value with
expiresAt = now + (ttl || defaultTTL) * 1000. -/
def TTLStore.set {α : Type} (s : TTLStore α) (key : String) (v : α)
    (ttl : Option Nat) (defaultTTL now : Nat) : TTLStore α :=
  ⟨mapSet s.storage key ⟨v, now + effTTL ttl defaultTTL * 1000⟩⟩

/-- TimeToLiveDBService.delete: removes the key, reporting whether it
was present. -/
def TTLStore.del {α : Type} (s : TTLStore α) (key : String) :
    Bool × TTLStore α :=
  ((mapGet s.storage key).isSome, ⟨mapDelete s.storage key⟩)

/-- TimeToLiveDBService.get: absent keys give none; an entry with
expiresAt < now is deleted lazily and reported absent; otherwise the
value is returned and the store is unchanged. -/
def TTLStore.get {α : Type} (s : TTLStore α) (key : String) (now : Nat) :
    Option α × TTLStore α :=
  match mapGet s.storage key with
  | none => (none, s)
  | some item =>
      if item.expiresAt < now then (none, (s.del key).2)
      else (some item.value, s)

/-- TimeToLiveDBService.has: like get but reporting presence only. -/
def TTLStore.has {α : Type} (s : TTLStore α) (key : String) (now : Nat) :
    Bool × TTLStore α :=
  match mapGet s.storage key with
  | none => (false, s)
  | some item =>
      if item.expiresAt < now then (false, (s.del key).2)
      else (true, s)

/-- TimeToLiveDBService.keys: keys whose entries satisfy
expiresAt > now, in insertion order. -/
def TTLStore.keys {α : Type} (s : TTLStore α) (now : Nat) : List String :=
  (s.storage.filter (fun p => decide (now < p.2.expiresAt))).map Prod.fst

/-- TimeToLiveDBService.size: the number of unexpired keys. -/
def TTLStore.size {α : Type} (s : TTLStore α) (now : Nat) : Nat :=
  (s.keys now).length

/-! ### Map lemmas -/

theorem mapGet_mapSet_self {α : Type} (m : List (String × TTLItem α))
    (k : String) (v : TTLItem α) : mapGet (mapSet m k v) k = some v := by
  induction m with
  | nil => simp [mapSet, mapGet]
  | cons p rest ih =>
      obtain ⟨k2, v2⟩ := p
      by_cases h : k2 = k
      · simp [mapSet, mapGet, h]
      · simp [mapSet, mapGet, h, ih]

theorem mapGet_mapDelete_self {α : Type} (m : List (String × TTLItem α))
    (k : String) : mapGet (mapDelete m k) k = none := by
  induction m with
  | nil => simp [mapDelete, mapGet]
  | cons p rest ih =>
      obtain ⟨k2, v2⟩ := p
      by_cases h : k2 = k
      · simpa [mapDelete, h] using ih
      · simpa [mapDelete, mapGet, h] using ih

theorem not_mem_keys_mapDelete {α : Type} (m : List (String × TTLItem α))
    (k : String) (now : Nat) :
    k ∉ (TTLStore.mk (mapDelete m k)).keys now := by
  intro hmem
  simp only [TTLStore.keys, List.mem_map, List.mem_filter, mapDelete] at hmem
  obtain ⟨p, ⟨hp, _⟩, hfst⟩ := hmem
  simp [hfst] at hp

theorem mapGet_eq_none_of_not_mem {α : Type}
    (m : List (String × TTLItem α)) (k : String)
    (h : k ∉ m.map Prod.fst) : mapGet m k = none := by
  induction m with
  | nil => rfl
  | cons p rest ih =>
      obtain ⟨k2, v2⟩ := p
      simp only [List.map_cons, List.mem_cons] at h
      push_neg at h
      have hne : k2 ≠ k := fun he => h.1 he.symm
      simp [mapGet, hne, ih h.2]

theorem effTTL_of_pos {T d : Nat} (hT : 0 < T) : effTTL (some T) d = T := by
  cases T with
  | zero => omega
  | succ n => rfl

theorem not_mem_keysList {α : Type} (m : List (String × TTLItem α))
    (k : String) (item : TTLItem α) (now : Nat)
    (hnd : (m.map Prod.fst).Nodup) (hk : mapGet m k = some item)
    (hexp : ¬ now < item.expiresAt) :
    k ∉ (m.filter (fun p => decide (now < p.2.expiresAt))).map Prod.fst := by
  induction m with
  | nil => simp [mapGet] at hk
  | cons p rest ih =>
      obtain ⟨k2, v2⟩ := p
      simp only [List.map_cons, List.nodup_cons] at hnd
      by_cases h : k2 = k
      · subst h
        simp only [mapGet, if_true, eq_self_iff_true, Option.some.injEq] at hk
        subst hk
        intro hmem
        simp only [List.filter_cons] at hmem
        rw [if_neg (by simpa using hexp)] at hmem
        simp only [List.mem_map, List.mem_filter] at hmem
        obtain ⟨q, ⟨hq, _⟩, hqf⟩ := hmem
        exact hnd.1 (by simpa [hqf] using List.mem_map_of_mem Prod.fst hq)
      · simp only [mapGet, if_neg h] at hk
        intro hmem
        simp only [List.filter_cons] at hmem
        have hrest := ih hnd.2 hk
        by_cases hd : now < v2.expiresAt
        · rw [if_pos (by simpa using hd)] at hmem
          simp only [List.map_cons, List.mem_cons] at hmem
          rcases hmem with hmem | hmem
          · exact h hmem.symm
          · exact hrest hmem
        · rw [if_neg (by simpa using hd)] at hmem
          exact hrest hmem

/-- C3: for every key k, value v and positive ttl of T seconds, after
set(k, v, T) performed at instant t (milliseconds), a get(k) at any
instant strictly before t + T seconds returns v and leaves the store
untouched, while a get(k) at any instant strictly after t + T seconds
returns absent, removes the entry from the underlying map, and the
resulting keys() no longer lists k. -/
theorem claim_C3_ttl_set_get {α : Type} (s : TTLStore α) (k : String)
    (v : α) (T t t2 dflt : Nat) (hT : 0 < T) :
    (t2 < t + T * 1000 →
        ((s.set k v (some T) dflt t).get k t2).1 = some v ∧
        ((s.set k v (some T) dflt t).get k t2).2 = s.set k v (some T) dflt t) ∧
    (t + T * 1000 < t2 →
        ((s.set k v (some T) dflt t).get k t2).1 = none ∧
        mapGet ((s.set k v (some T) dflt t).get k t2).2.storage k = none ∧
        k ∉ ((s.set k v (some T) dflt t).get k t2).2.keys t2) := by
  have hget : mapGet (s.set k v (some T) dflt t).storage k
      = some ⟨v, t + T * 1000⟩ := by
    simp [TTLStore.set, effTTL_of_pos hT, mapGet_mapSet_self]
  constructor
  · intro hlt
    have hnex : ¬ (t + T * 1000 < t2) := by omega
    simp [TTLStore.get, hget, hnex]
  · intro hgt
    have h1 : (s.set k v (some T) dflt t).get k t2
        = (none, ((s.set k v (some T) dflt t).del k).2) := by
      simp [TTLStore.get, hget, hgt]
    rw [h1]
    exact ⟨rfl, mapGet_mapDelete_self _ k, not_mem_keys_mapDelete _ k t2⟩

/-- Witness for C3 at the concrete scenario of the spec: set at t = 0
with ttl 1 second; get at 500 ms returns the value, get at 1500 ms is
absent and keys() no longer lists the key. -/
theorem claim_C3_ttl_set_get_witness :
    ((TTLStore.empty.set "k" (7 : Nat) (some 1) 3600 0).get "k" 500).1
        = some 7 ∧
    ((TTLStore.empty.set "k" (7 : Nat) (some 1) 3600 0).get "k" 1500).1
        = none ∧
    "k" ∉ ((TTLStore.empty.set "k" (7 : Nat) (some 1) 3600 0).get
        "k" 1500).2.keys 1500 :=
  ⟨((claim_C3_ttl_set_get TTLStore.empty "k" 7 1 0 500 3600
      (by decide)).1 (by decide)).1,
   ((claim_C3_ttl_set_get TTLStore.empty "k" 7 1 0 1500 3600
      (by decide)).2 (by decide)).1,
   ((claim_C3_ttl_set_get TTLStore.empty "k" 7 1 0 1500 3600
      (by decide)).2 (by decide)).2.2⟩

/-- C10: at the exact expiry instant of an entry, get still returns the
stored value and has still answers true, because expiry is tested with a
strict comparison expiresAt < now, while keys() and size() already
exclude the key, because membership requires the strict comparison
expiresAt > now; hence a key reported present by get is simultaneously
absent from keys(). -/
theorem claim_C10_exact_expiry_instant {α : Type} (s : TTLStore α)
    (k : String) (item : TTLItem α) (hwf : s.wf)
    (hk : mapGet s.storage k = some item) :
    (s.get k item.expiresAt).1 = some item.value ∧
    (s.has k item.expiresAt).1 = true ∧
    k ∉ s.keys item.expiresAt ∧
    s.size item.expiresAt = (s.keys item.expiresAt).length := by
  have hirr : ¬ item.expiresAt < item.expiresAt := Nat.lt_irrefl _
  refine ⟨?_, ?_, ?_, rfl⟩
  · simp [TTLStore.get, hk, hirr]
  · simp [TTLStore.has, hk, hirr]
  · exact not_mem_keysList s.storage k item item.expiresAt hwf hk hirr

/-- Witness for C10 on a one-entry store whose entry expires exactly at
the instant of observation. -/
theorem claim_C10_exact_expiry_instant_witness :
    ((TTLStore.mk [("k", ⟨3, 1000⟩)] : TTLStore Nat).get "k" 1000).1
        = some 3 ∧
    "k" ∉ (TTLStore.mk [("k", ⟨3, 1000⟩)] : TTLStore Nat).keys 1000 :=
  ⟨(claim_C10_exact_expiry_instant
      (TTLStore.mk [("k", ⟨3, 1000⟩)]) "k" ⟨3, 1000⟩
      (by simp [TTLStore.wf]) rfl).1,
   (claim_C10_exact_expiry_instant
      (TTLStore.mk [("k", ⟨3, 1000⟩)]) "k" ⟨3, 1000⟩
      (by simp [TTLStore.wf]) rfl).2.2.1⟩

/-- Lemma: a get performed at the same instant as the set always sees
the freshly stored value, because expiry requires expiresAt < now
strictly while expiresAt = now + ttl * 1000 ≥ now. -/
theorem get_set_same_now {α : Type} (s : TTLStore α) (k : String) (v : α)
    (ttl : Option Nat) (dflt now : Nat) :
    (s.set k v ttl dflt now).get k now
      = (some v, s.set k v ttl dflt now) := by
  have hget : mapGet (s.set k v ttl dflt now).storage k
      = some ⟨v, now + effTTL ttl dflt * 1000⟩ := by
    simp [TTLStore.set, mapGet_mapSet_self]
  have hnex : ¬ (now + effTTL ttl dflt * 1000 < now) := by omega
  simp [TTLStore.get, hget, hnex]

/-! ## ClientContextService (src/client-context/client-context.service.ts) -/

/-- Multer file handle as used by the controllers: temp-file path,
original client-side name and byte size. -/
structure MulterFile where
  path : String
  originalname : String
  size : Nat
  deriving Repr, DecidableEq

/-- Callback sink registered with a request. -/
structure OptimizationCallback where
  url : String
  deriving Repr, DecidableEq

/-- Stored ControllerParamsContext. The base fields clientId, createdAt
and updatedAt are always written by the merge; the remaining fields are
optional keys of the stored object. The height field is itself nullable
in the source (number | null), hence the nested Option. -/
structure ControllerParamsContext where
  clientId : String
  createdAt : Nat
  updatedAt : Nat
  file : Option MulterFile := none
  files : Option (List MulterFile) := none
  callbacks : Option (List OptimizationCallback) := none
  width : Option Int := none
  height : Option (Option Int) := none
  quality : Option Int := none
  format : Option String := none
  newFilePath : Option String := none
  newFilePaths : Option (List String) := none
  deriving Repr, DecidableEq

/-- Update record passed to setControllerParamsContext: every field may
be absent. The createdAt and updatedAt keys of the update are omitted
because the source overwrites both unconditionally after the spread. -/
structure CPCPatch where
  clientId : Option String := none
  file : Option MulterFile := none
  files : Option (List MulterFile) := none
  callbacks : Option (List OptimizationCallback) := none
  width : Option Int := none
  height : Option (Option Int) := none
  quality : Option Int := none
  format : Option String := none
  newFilePath : Option String := none
  newFilePaths : Option (List String) := none
  deriving Repr, DecidableEq

/-- Object-spread composition on one optional field: the update wins
whenever its key is present. -/
def jsOr {β : Type} (a b : Option β) : Option β :=
  match a with
  | some x => some x
  | none => b

/-- JS short-circuit or on an optional string against a fallback: an
absent or empty (falsy) string selects the fallback. -/
def jsOrStr (a : Option String) (b : String) : String :=
  match a with
  | some s => if s = "" then b else s
  | none => b

/-- Merge-on-write of setControllerParamsContext: spread of the existing
context then the update, with clientId, createdAt and updatedAt written
afterwards exactly as in the source, including the short-circuit
context.clientId || existingContext?.clientId || id. -/
def mergeCPC (existing : Option ControllerParamsContext)
    (patch : CPCPatch) (id : String) (now : Nat) :
    ControllerParamsContext :=
  { clientId := jsOrStr patch.clientId
      (match existing with
       | some e => if e.clientId = "" then id else e.clientId
       | none => id)
    createdAt := match existing with
       | some e => e.createdAt
       | none => now
    updatedAt := now
    file := jsOr patch.file (existing.bind ControllerParamsContext.file)
    files := jsOr patch.files (existing.bind ControllerParamsContext.files)
    callbacks := jsOr patch.callbacks
      (existing.bind ControllerParamsContext.callbacks)
    width := jsOr patch.width (existing.bind ControllerParamsContext.width)
    height := jsOr patch.height
      (existing.bind ControllerParamsContext.height)
    quality := jsOr patch.quality
      (existing.bind ControllerParamsContext.quality)
    format := jsOr patch.format
      (existing.bind ControllerParamsContext.format)
    newFilePath := jsOr patch.newFilePath
      (existing.bind ControllerParamsContext.newFilePath)
    newFilePaths := jsOr patch.newFilePaths
      (existing.bind ControllerParamsContext.newFilePaths) }

/-- Key generation of ClientContextService for the controller-params
context type. -/
def cpcKey (id : String) : String := "controller-params:" ++ id

/-- State threaded through the service layer: the TTL store holding
controller-params contexts. -/
abbrev CtxStore := TTLStore ControllerParamsContext

/-- ClientContextService.getControllerParamsContext. -/
def getControllerParamsContext (s : CtxStore) (id : String) (now : Nat) :
    Option ControllerParamsContext × CtxStore :=
  s.get (cpcKey id) now

/-- ClientContextService.setControllerParamsContext: reads the existing
context (possibly evicting an expired entry), merges, and stores with
ttl || defaultTTL. -/
def setControllerParamsContext (s : CtxStore) (id : String)
    (patch : CPCPatch) (ttl : Option Nat) (dflt now : Nat) : CtxStore :=
  ((getControllerParamsContext s id now).2).set (cpcKey id)
    (mergeCPC (getControllerParamsContext s id now).1 patch id now)
    ttl dflt now

/-- Lemma: reading back immediately after a setControllerParamsContext
yields exactly the merged record. -/
theorem getCPC_setCPC (s : CtxStore) (id : String) (patch : CPCPatch)
    (ttl : Option Nat) (dflt now : Nat) :
    (getControllerParamsContext
        (setControllerParamsContext s id patch ttl dflt now) id now).1
      = some (mergeCPC (getControllerParamsContext s id now).1 patch id now) := by
  unfold setControllerParamsContext getControllerParamsContext
  rw [get_set_same_now]

/-! ## optimizeImageWorker
(src/image-optimization/workers/image-optimization.worker.ts)

The sharp library is abstracted as a record of deterministic encoder
functions; an encoder returning none models a toBuffer rejection. The
resize stage is a total function because configuring a resize never
throws; failures surface at encode time. -/

/-- Output formats of the ImageFormat enum. -/
inductive ImageFormat
  | jpeg | png | webp | avif | gif | tiff | svg | auto
  deriving Repr, DecidableEq

/-- String value of each enum member. -/
def ImageFormat.name : ImageFormat → String
  | .jpeg => "jpeg"
  | .png => "png"
  | .webp => "webp"
  | .avif => "avif"
  | .gif => "gif"
  | .tiff => "tiff"
  | .svg => "svg"
  | .auto => "auto"

/-- Deterministic abstraction of the sharp codec: one encoder per
format, each taking the quality option where the source passes one. -/
structure SharpCodec where
  resize : Buf → Option Int → Option Int → Buf
  jpeg : Nat → Buf → Option Buf
  png : Nat → Buf → Option Buf
  webp : Nat → Buf → Option Buf
  avif : Nat → Buf → Option Buf
  gif : Buf → Option Buf
  tiff : Nat → Buf → Option Buf

/-- Options record handed to the worker (and to the service layer). -/
structure WorkerOptions where
  width : Option Int := none
  height : Option Int := none
  quality : Option Nat := none
  format : Option ImageFormat := none
  deriving Repr, DecidableEq

/-- OptimizationTask of the worker module. -/
structure OptimizationTask where
  imageBuffer : Buf
  options : WorkerOptions
  originalName : String
  deriving Repr, DecidableEq

/-- OptimizationResult of the worker module. -/
structure OptimizationResult where
  optimizedBuffer : Buf
  originalSize : Nat
  optimizedSize : Nat
  originalName : String
  success : Bool
  error : Option String := none
  deriving Repr, DecidableEq

/-- JS truthiness of a numeric option: present and nonzero. -/
def jsTruthyInt (n : Option Int) : Bool :=
  match n with
  | some v => decide (v ≠ 0)
  | none => false

/-- Effective quality, source expression options.quality || 80. -/
def effQuality (q : Option Nat) : Nat :=
  match q with
  | none => 80
  | some 0 => 80
  | some n => n

/-- Pipeline state after the optional resize stage: the source resizes
with fit inside and withoutEnlargement when width or height is truthy. -/
def workerBase (c : SharpCodec) (task : OptimizationTask) : Buf :=
  if jsTruthyInt task.options.width || jsTruthyInt task.options.height then
    c.resize task.imageBuffer task.options.width task.options.height
  else task.imageBuffer

/-- One pass of the candidate-testing loop of the auto branch: a failed
encode is caught and skipped, a successful encode strictly smaller than
the running minimum (Infinity at the start, modelled as none) replaces
the current best format. -/
def selStep (base : Buf) (acc : ImageFormat × Option Nat)
    (t : ImageFormat × (Buf → Option Buf)) : ImageFormat × Option Nat :=
  match t.2 base with
  | none => acc
  | some buf =>
      match acc.2 with
      | none => (t.1, some buf.length)
      | some m => if buf.length < m then (t.1, some buf.length) else acc

/-- Candidate list of the auto branch, in source order. -/
def testFormats (c : SharpCodec) (q : Nat) :
    List (ImageFormat × (Buf → Option Buf)) :=
  [(ImageFormat.jpeg, c.jpeg q), (ImageFormat.webp, c.webp q),
   (ImageFormat.avif, c.avif q), (ImageFormat.png, c.png q)]

/-- Best format chosen by the testing loop, with initial value JPEG and
minSize Infinity. -/
def bestFormat (c : SharpCodec) (q : Nat) (base : Buf) : ImageFormat :=
  (List.foldl (selStep base) (ImageFormat.jpeg, none) (testFormats c q)).1

/-- Inner switch applying the chosen best format to the pipeline; the
default arm (unreachable for the four tested formats) encodes jpeg. -/
def applyBestFormat (c : SharpCodec) (q : Nat) (fmt : ImageFormat)
    (base : Buf) : Option Buf :=
  match fmt with
  | .jpeg => c.jpeg q base
  | .png => c.png q base
  | .webp => c.webp q base
  | .avif => c.avif q base
  | _ => c.jpeg q base

/-- Auto branch of the worker. The initial block encodes all four
candidates with no per-candidate error handling, so a single failure
there aborts the whole branch into the catch arm, which falls back to a
plain jpeg encode; only when all four initial encodes succeed does the
testing loop run and the chosen best format get re-applied to the
pipeline. The sorted formats array of the source is dead code and does
not influence the output. -/
def autoEncode (c : SharpCodec) (q : Nat) (base : Buf) : Option Buf :=
  match c.jpeg q base, c.webp q base, c.avif q base, c.png q base with
  | some _, some _, some _, some _ =>
      applyBestFormat c q (bestFormat c q base) base
  | _, _, _, _ => c.jpeg q base

/-- optimizeImageWorker: resize stage, then the format switch, then the
final toBuffer; a failed final encode lands in the outer catch, which
reports success = false with an empty buffer. -/
def optimizeImageWorker (c : SharpCodec) (task : OptimizationTask) :
    OptimizationResult :=
  let originalSize := task.imageBuffer.length
  let base := workerBase c task
  let q := effQuality task.options.quality
  let enc : Option Buf :=
    match task.options.format with
    | some .jpeg => c.jpeg q base
    | some .png => c.png q base
    | some .webp => c.webp q base
    | some .avif => c.avif q base
    | some .gif => c.gif base
    | some .tiff => c.tiff q base
    | some .auto => autoEncode c q base
    | some .svg => c.jpeg q base
    | none => c.jpeg q base
  match enc with
  | some buf =>
      { optimizedBuffer := buf, originalSize := originalSize,
        optimizedSize := buf.length, originalName := task.originalName,
        success := true, error := none }
  | none =>
      { optimizedBuffer := [], originalSize := originalSize,
        optimizedSize := 0, originalName := task.originalName,
        success := false, error := some "encode failed" }

/-- Modelled from the spec: the auto policy returns the smallest of the
four candidate encodings, ties broken in the order jpeg, webp, avif,
png. This definition follows the words of the spec and is compared
against the translated worker. -/
def specAutoSmallest (bJ bW bA bP : Buf) : Buf :=
  if bJ.length ≤ bW.length ∧ bJ.length ≤ bA.length ∧ bJ.length ≤ bP.length
  then bJ
  else if bW.length ≤ bA.length ∧ bW.length ≤ bP.length then bW
  else if bA.length ≤ bP.length then bA
  else bP

/-- Lemma: when all four candidates encode successfully, the auto
branch returns the smallest candidate, earliest format first on ties. -/
theorem autoEncode_all_success (c : SharpCodec) (q : Nat)
    (base bJ bW bA bP : Buf)
    (hJ : c.jpeg q base = some bJ) (hW : c.webp q base = some bW)
    (hA : c.avif q base = some bA) (hP : c.png q base = some bP) :
    autoEncode c q base = some (specAutoSmallest bJ bW bA bP) := by
  have e1 : selStep base (ImageFormat.jpeg, none) (ImageFormat.jpeg, c.jpeg q)
      = (ImageFormat.jpeg, some bJ.length) := by simp [selStep, hJ]
  have hmain : applyBestFormat c q (bestFormat c q base) base
      = some (specAutoSmallest bJ bW bA bP) := by
    by_cases h1 : bW.length < bJ.length
    · have e2 : selStep base (ImageFormat.jpeg, some bJ.length)
          (ImageFormat.webp, c.webp q)
          = (ImageFormat.webp, some bW.length) := by simp [selStep, hW, h1]
      by_cases h2 : bA.length < bW.length
      · have e3 : selStep base (ImageFormat.webp, some bW.length)
            (ImageFormat.avif, c.avif q)
            = (ImageFormat.avif, some bA.length) := by simp [selStep, hA, h2]
        by_cases h3 : bP.length < bA.length
        · have e4 : selStep base (ImageFormat.avif, some bA.length)
              (ImageFormat.png, c.png q)
              = (ImageFormat.png, some bP.length) := by simp [selStep, hP, h3]
          have hbf : bestFormat c q base = ImageFormat.png := by
            simp [bestFormat, testFormats, e1, e2, e3, e4]
          rw [hbf]
          simp only [applyBestFormat, hP, specAutoSmallest]
          rw [if_neg (by omega), if_neg (by omega), if_neg (by omega)]
        · have e4 : selStep base (ImageFormat.avif, some bA.length)
              (ImageFormat.png, c.png q)
              = (ImageFormat.avif, some bA.length) := by simp [selStep, hP, h3]
          have hbf : bestFormat c q base = ImageFormat.avif := by
            simp [bestFormat, testFormats, e1, e2, e3, e4]
          rw [hbf]
          simp only [applyBestFormat, hA, specAutoSmallest]
          rw [if_neg (by omega), if_neg (by omega), if_pos (by omega)]
      · have e3 : selStep base (ImageFormat.webp, some bW.length)
            (ImageFormat.avif, c.avif q)
            = (ImageFormat.webp, some bW.length) := by simp [selStep, hA, h2]
        by_cases h3 : bP.length < bW.length
        · have e4 : selStep base (ImageFormat.webp, some bW.length)
              (ImageFormat.png, c.png q)
              = (ImageFormat.png, some bP.length) := by simp [selStep, hP, h3]
          have hbf : bestFormat c q base = ImageFormat.png := by
            simp [bestFormat, testFormats, e1, e2, e3, e4]
          rw [hbf]
          simp only [applyBestFormat, hP, specAutoSmallest]
          rw [if_neg (by omega), if_neg (by omega), if_neg (by omega)]
        · have e4 : selStep base (ImageFormat.webp, some bW.length)
              (ImageFormat.png, c.png q)
              = (ImageFormat.webp, some bW.length) := by simp [selStep, hP, h3]
          have hbf : bestFormat c q base = ImageFormat.webp := by
            simp [bestFormat, testFormats, e1, e2, e3, e4]
          rw [hbf]
          simp only [applyBestFormat, hW, specAutoSmallest]
          rw [if_neg (by omega), if_pos (by omega)]
    · have e2 : selStep base (ImageFormat.jpeg, some bJ.length)
          (ImageFormat.webp, c.webp q)
          = (ImageFormat.jpeg, some bJ.length) := by simp [selStep, hW, h1]
      by_cases h2 : bA.length < bJ.length
      · have e3 : selStep base (ImageFormat.jpeg, some bJ.length)
            (ImageFormat.avif, c.avif q)
            = (ImageFormat.avif, some bA.length) := by simp [selStep, hA, h2]
        by_cases h3 : bP.length < bA.length
        · have e4 : selStep base (ImageFormat.avif, some bA.length)
              (ImageFormat.png, c.png q)
              = (ImageFormat.png, some bP.length) := by simp [selStep, hP, h3]
          have hbf : bestFormat c q base = ImageFormat.png := by
            simp [bestFormat, testFormats, e1, e2, e3, e4]
          rw [hbf]
          simp only [applyBestFormat, hP, specAutoSmallest]
          rw [if_neg (by omega), if_neg (by omega), if_neg (by omega)]
        · have e4 : selStep base (ImageFormat.avif, some bA.length)
              (ImageFormat.png, c.png q)
              = (ImageFormat.avif, some bA.length) := by simp [selStep, hP, h3]
          have hbf : bestFormat c q base = ImageFormat.avif := by
            simp [bestFormat, testFormats, e1, e2, e3, e4]
          rw [hbf]
          simp only [applyBestFormat, hA, specAutoSmallest]
          rw [if_neg (by omega), if_neg (by omega), if_pos (by omega)]
      · have e3 : selStep base (ImageFormat.jpeg, some bJ.length)
            (ImageFormat.avif, c.avif q)
            = (ImageFormat.jpeg, some bJ.length) := by simp [selStep, hA, h2]
        by_cases h3 : bP.length < bJ.length
        · have e4 : selStep base (ImageFormat.jpeg, some bJ.length)
              (ImageFormat.png, c.png q)
              = (ImageFormat.png, some bP.length) := by simp [selStep, hP, h3]
          have hbf : bestFormat c q base = ImageFormat.png := by
            simp [bestFormat, testFormats, e1, e2, e3, e4]
          rw [hbf]
          simp only [applyBestFormat, hP, specAutoSmallest]
          rw [if_neg (by omega), if_neg (by omega), if_neg (by omega)]
        · have e4 : selStep base (ImageFormat.jpeg, some bJ.length)
              (ImageFormat.png, c.png q)
              = (ImageFormat.jpeg, some bJ.length) := by simp [selStep, hP, h3]
          have hbf : bestFormat c q base = ImageFormat.jpeg := by
            simp [bestFormat, testFormats, e1, e2, e3, e4]
          rw [hbf]
          simp only [applyBestFormat, hJ, specAutoSmallest]
          rw [if_pos (by omega)]
  unfold autoEncode
  rw [hJ, hW, hA, hP]
  exact hmain

/-- C1 amended: for every input buffer and options with format auto, in
every run where all four candidates jpeg, webp, avif and png encode
successfully at the effective quality, the worker succeeds and returns
exactly the smallest candidate, ties broken by the order jpeg, webp,
avif, png, so the returned length is bounded by the length of every
candidate. The restriction to runs where all four candidates succeed is
forced by the counterexample: one failing candidate aborts the
selection into a jpeg fallback. -/
theorem claim_C1_auto_returns_smallest (c : SharpCodec)
    (task : OptimizationTask) (bJ bW bA bP : Buf)
    (hfmt : task.options.format = some ImageFormat.auto)
    (hJ : c.jpeg (effQuality task.options.quality) (workerBase c task)
        = some bJ)
    (hW : c.webp (effQuality task.options.quality) (workerBase c task)
        = some bW)
    (hA : c.avif (effQuality task.options.quality) (workerBase c task)
        = some bA)
    (hP : c.png (effQuality task.options.quality) (workerBase c task)
        = some bP) :
    (optimizeImageWorker c task).success = true ∧
    (optimizeImageWorker c task).optimizedBuffer
        = specAutoSmallest bJ bW bA bP ∧
    (optimizeImageWorker c task).optimizedSize ≤ bJ.length ∧
    (optimizeImageWorker c task).optimizedSize ≤ bW.length ∧
    (optimizeImageWorker c task).optimizedSize ≤ bA.length ∧
    (optimizeImageWorker c task).optimizedSize ≤ bP.length := by
  have hae := autoEncode_all_success c (effQuality task.options.quality)
    (workerBase c task) bJ bW bA bP hJ hW hA hP
  have hres : optimizeImageWorker c task =
      { optimizedBuffer := specAutoSmallest bJ bW bA bP,
        originalSize := task.imageBuffer.length,
        optimizedSize := (specAutoSmallest bJ bW bA bP).length,
        originalName := task.originalName,
        success := true, error := none } := by
    simp only [optimizeImageWorker, hfmt, hae]
  have hlen : (specAutoSmallest bJ bW bA bP).length ≤ bJ.length ∧
      (specAutoSmallest bJ bW bA bP).length ≤ bW.length ∧
      (specAutoSmallest bJ bW bA bP).length ≤ bA.length ∧
      (specAutoSmallest bJ bW bA bP).length ≤ bP.length := by
    simp only [specAutoSmallest]
    split_ifs <;> omega
  rw [hres]
  exact ⟨rfl, rfl, hlen.1, hlen.2.1, hlen.2.2.1, hlen.2.2.2⟩

/-- Codec instance for the C1 counterexample: avif fails to encode,
webp yields the smallest of the remaining candidates. -/
def c1CexCodec : SharpCodec :=
  { resize := fun b _ _ => b
    jpeg := fun _ _ => some [1, 1, 1]
    png := fun _ _ => some [1, 1]
    webp := fun _ _ => some [1]
    avif := fun _ _ => none
    gif := fun _ => none
    tiff := fun _ _ => none }

/-- Task with format auto used by the C1 and C6 evaluations. -/
def autoTask : OptimizationTask :=
  { imageBuffer := [9]
    options := { format := some ImageFormat.auto }
    originalName := "img.png" }

/-- C1 counterexample: with the avif candidate failing, the worker
falls back to jpeg and returns three bytes although the webp candidate
successfully encoded to one byte, so the returned length is not bounded
by the length of each successfully encoded candidate. -/
theorem claim_C1_counterexample :
    (optimizeImageWorker c1CexCodec autoTask).success = true ∧
    c1CexCodec.webp 80 (workerBase c1CexCodec autoTask) = some [1] ∧
    (optimizeImageWorker c1CexCodec autoTask).optimizedSize = 3 ∧
    ¬ (optimizeImageWorker c1CexCodec autoTask).optimizedSize
        ≤ ([1] : Buf).length := by decide

/-- Codec instance for the C1 witness: all four candidates succeed,
webp is strictly smallest. -/
def c1WitCodec : SharpCodec :=
  { resize := fun b _ _ => b
    jpeg := fun _ _ => some [1, 1]
    png := fun _ _ => some [1, 1, 1, 1]
    webp := fun _ _ => some [1]
    avif := fun _ _ => some [1, 1, 1]
    gif := fun _ => none
    tiff := fun _ _ => none }

/-- Witness for amended C1: a concrete all-candidates-succeed run. -/
theorem claim_C1_auto_returns_smallest_witness :
    (optimizeImageWorker c1WitCodec autoTask).success = true ∧
    (optimizeImageWorker c1WitCodec autoTask).optimizedBuffer
        = specAutoSmallest [1, 1] [1] [1, 1, 1] [1, 1, 1, 1] ∧
    (optimizeImageWorker c1WitCodec autoTask).optimizedSize
        ≤ ([1, 1] : Buf).length ∧
    (optimizeImageWorker c1WitCodec autoTask).optimizedSize
        ≤ ([1] : Buf).length ∧
    (optimizeImageWorker c1WitCodec autoTask).optimizedSize
        ≤ ([1, 1, 1] : Buf).length ∧
    (optimizeImageWorker c1WitCodec autoTask).optimizedSize
        ≤ ([1, 1, 1, 1] : Buf).length :=
  claim_C1_auto_returns_smallest c1WitCodec autoTask
    [1, 1] [1] [1, 1, 1] [1, 1, 1, 1] rfl rfl rfl rfl rfl

/-- Codec instance for the C6 evaluation: jpeg fails while the other
three candidates encode successfully. -/
def c6Codec : SharpCodec :=
  { resize := fun b _ _ => b
    jpeg := fun _ _ => none
    png := fun _ _ => some [2, 2]
    webp := fun _ _ => some [2]
    avif := fun _ _ => some [2, 2, 2]
    gif := fun _ => none
    tiff := fun _ _ => none }

/-- C6 evaluation at the failing input: the jpeg candidate fails while
webp, avif and png all encode successfully, yet the whole auto
operation reports failure, because the initial encoding block has no
per-candidate handling, so its exception skips the selection loop and
the catch arm re-encodes jpeg, which fails again. The claim says a
failing candidate is skipped with the rest still considered, and that
the operation fails only when all four candidates fail. -/
theorem claim_C6_failing_input_eval :
    (optimizeImageWorker c6Codec autoTask).success = false ∧
    c6Codec.webp 80 (workerBase c6Codec autoTask) = some [2] ∧
    c6Codec.avif 80 (workerBase c6Codec autoTask) = some [2, 2, 2] ∧
    c6Codec.png 80 (workerBase c6Codec autoTask) = some [2, 2] := by decide

/-! ## C7: merge-on-write of setControllerParamsContext -/

/-- Store after a first write putting clientId c under id i. -/
def c7StoreA : CtxStore :=
  setControllerParamsContext TTLStore.empty "i"
    { clientId := some "c" } none 3600 0

/-- Store after a second write whose update carries the present but
empty clientId. -/
def c7StoreB : CtxStore :=
  setControllerParamsContext c7StoreA "i"
    { clientId := some "" } none 3600 1000

/-- C7 counterexample: the update passed to the second write has the
clientId key present with the empty string, yet the stored value keeps
the prior clientId c, because the source uses the JS short-circuit
context.clientId || existingContext?.clientId || id, and the empty
string is falsy. The claim says the clientId is taken from the new
fields whenever present. -/
theorem claim_C7_counterexample :
    (CPCPatch.clientId { clientId := some "" } = some "") ∧
    ((getControllerParamsContext c7StoreB "i" 1000).1.map
        ControllerParamsContext.clientId = some "c") ∧
    "c" ≠ "" := by
  refine ⟨rfl, ?_, by decide⟩
  rfl

/-- C7 amended: every set of a controller-params update stores the
shallow composition of the previously stored value (if any) with the
new fields; clientId is taken from the new fields when present and
truthy (non-empty), otherwise from the prior value when truthy,
otherwise it defaults to the id; createdAt is preserved from the prior
value when one exists and is set to the write instant otherwise; and
updatedAt is refreshed to the write instant on every write. -/
theorem claim_C7_merge_on_write (s : CtxStore) (id : String)
    (patch : CPCPatch) (ttl : Option Nat) (dflt now : Nat) :
    ∃ stored,
      (getControllerParamsContext
          (setControllerParamsContext s id patch ttl dflt now) id now).1
        = some stored ∧
      stored.file = jsOr patch.file
        ((getControllerParamsContext s id now).1.bind
          ControllerParamsContext.file) ∧
      stored.files = jsOr patch.files
        ((getControllerParamsContext s id now).1.bind
          ControllerParamsContext.files) ∧
      stored.callbacks = jsOr patch.callbacks
        ((getControllerParamsContext s id now).1.bind
          ControllerParamsContext.callbacks) ∧
      stored.width = jsOr patch.width
        ((getControllerParamsContext s id now).1.bind
          ControllerParamsContext.width) ∧
      stored.height = jsOr patch.height
        ((getControllerParamsContext s id now).1.bind
          ControllerParamsContext.height) ∧
      stored.quality = jsOr patch.quality
        ((getControllerParamsContext s id now).1.bind
          ControllerParamsContext.quality) ∧
      stored.format = jsOr patch.format
        ((getControllerParamsContext s id now).1.bind
          ControllerParamsContext.format) ∧
      stored.newFilePath = jsOr patch.newFilePath
        ((getControllerParamsContext s id now).1.bind
          ControllerParamsContext.newFilePath) ∧
      stored.newFilePaths = jsOr patch.newFilePaths
        ((getControllerParamsContext s id now).1.bind
          ControllerParamsContext.newFilePaths) ∧
      stored.clientId = jsOrStr patch.clientId
        (match (getControllerParamsContext s id now).1 with
         | some e => if e.clientId = "" then id else e.clientId
         | none => id) ∧
      stored.createdAt = (match (getControllerParamsContext s id now).1 with
         | some e => e.createdAt
         | none => now) ∧
      stored.updatedAt = now := by
  refine ⟨mergeCPC (getControllerParamsContext s id now).1 patch id now,
    getCPC_setCPC s id patch ttl dflt now,
    rfl, rfl, rfl, rfl, rfl, rfl, rfl, rfl, rfl, rfl, rfl, rfl⟩

/-! ## Service layer
(ImageUploadService, ImageOptimizationService, ImageOptimizationController)

The asynchronous arm is modelled as a sequential function producing an
explicit trace of externally visible effects. -/

/-- Entry of the consolidated batch results array. -/
structure BatchResultEntry where
  originalName : String
  originalSize : Option Nat := none
  optimizedSize : Option Nat := none
  newFilePath : Option String := none
  error : Option String := none
  success : Bool
  deriving Repr, DecidableEq, Inhabited

/-- Payload handed to NotifyCallbackService.notify. -/
structure NotifyPayload where
  optimizationId : String
  status : Option String := none
  typ : Option String := none
  results : Option (List BatchResultEntry) := none
  totalFiles : Option Nat := none
  successfulFiles : Option Nat := none
  failedFiles : Option Nat := none
  deriving Repr, DecidableEq, Inhabited

/-- Externally visible effects of the asynchronous arm: a blob-store
put, a callback notification, an SSE publication, or a logged error.
The sse constructor exists so that absence of SSE publications is
expressible; the code paths under study never produce one. -/
inductive Ev
  | s3Put (key : Option String) (mime : String) (body : Buf)
  | notify (payload : NotifyPayload)
  | sse (id : String) (kind : String)
  | logError (msg : String)
  deriving Repr, DecidableEq, Inhabited

def Ev.isS3Put : Ev → Bool
  | .s3Put _ _ _ => true
  | _ => false

def Ev.isNotify : Ev → Bool
  | .notify _ => true
  | _ => false

def Ev.isSse : Ev → Bool
  | .sse _ _ => true
  | _ => false

/-- Environment of the run: deterministic abstractions of the file
system read, the codec, the blob store, and the configuration. -/
structure Env where
  readFile : String → Option Buf
  codec : SharpCodec
  s3Ok : Option String → Buf → Bool
  urlBase : String
  dflt : Nat

/-- Mime type string, source expression image/ ++ (options.format ||
jpeg). -/
def mimeOf (fmt : Option ImageFormat) : String :=
  "image/" ++ (match fmt with
               | some f => f.name
               | none => "jpeg")

/-- ImageUploadService.uploadFile (src/image-upload): fetches the
controller-params context; when absent it logs an error and returns
without marking anything failed; otherwise it issues the blob-store put
under the key context.newFilePath, swallowing an upload rejection with
a logged error. -/
def uploadFile (env : Env) (s : CtxStore) (fileBuffer : Buf)
    (optimizationId mime : String) (now : Nat) : CtxStore × List Ev :=
  match getControllerParamsContext s optimizationId now with
  | (none, s1) =>
      (s1, [Ev.logError ("Context not found id: " ++ optimizationId)])
  | (some ctx, s1) =>
      if env.s3Ok ctx.newFilePath fileBuffer then
        (s1, [Ev.s3Put ctx.newFilePath mime fileBuffer])
      else
        (s1, [Ev.s3Put ctx.newFilePath mime fileBuffer,
              Ev.logError "s3 upload failed"])

/-- ImageOptimizationService.optimizeImage (worker-pool revision): the
context is required, the temp file is decoded, the worker runs, a
failed worker result raises, and a successful one is uploaded. The
error value models the thrown BadRequestException. -/
def serviceOptimizeImage (env : Env) (s : CtxStore) (file : MulterFile)
    (options : WorkerOptions) (optimizationId : String) (now : Nat) :
    CtxStore × List Ev × Except String (Nat × Nat) :=
  match getControllerParamsContext s optimizationId now with
  | (none, s1) => (s1, [], Except.error "Controller parameters not found")
  | (some _, s1) =>
      match env.readFile file.path with
      | none => (s1, [], Except.error "Failed to read image file")
      | some imageBuffer =>
          let task : OptimizationTask :=
            { imageBuffer := imageBuffer, options := options,
              originalName := file.originalname }
          let result := optimizeImageWorker env.codec task
          if result.success then
            let up := uploadFile env s1 result.optimizedBuffer
              optimizationId (mimeOf options.format) now
            (up.1, up.2, Except.ok (result.originalSize, result.optimizedSize))
          else
            (s1, [],
             Except.error ("Worker optimization failed: "
               ++ result.error.getD ""))

/-- Request reaching the single-image controller after the pipes have
applied defaults: width 800, height null, quality 80, format jpeg. -/
structure OptimizeRequest where
  file : Option MulterFile
  callbacks : List OptimizationCallback
  width : Int
  height : Option Int
  quality : Int
  format : String
  deriving Repr, DecidableEq

/-- Value of new URL(newFilePath, urlBase): the configured base
combined with the minted path. -/
structure ResolvedURL where
  base : String
  path : String
  deriving Repr, DecidableEq, Inhabited

def newURL (path base : String) : ResolvedURL := ⟨base, path⟩

/-- Synchronous response of the optimize endpoint. -/
structure OptimizeResponse where
  message : String
  originalSize : Nat
  data : String
  downloadUrl : ResolvedURL
  callbacksScheduled : Nat
  optimizationId : String
  deriving Repr, DecidableEq, Inhabited

/-- Lower-casing of a string, mirroring format.toLowerCase; defined
over the character list so that concrete instances evaluate. -/
def toLowerStr (s : String) : String := ⟨s.data.map Char.toLower⟩

/-- Values of the ImageFormat enum, the membership set of the format
validation. -/
def supportedFormats : List String :=
  ["jpeg", "png", "webp", "avif", "gif", "tiff", "svg", "auto"]

/-- Parse of the lowercased format string into the enum. -/
def parseFormat (s : String) : Option ImageFormat :=
  if s = "jpeg" then some ImageFormat.jpeg
  else if s = "png" then some ImageFormat.png
  else if s = "webp" then some ImageFormat.webp
  else if s = "avif" then some ImageFormat.avif
  else if s = "gif" then some ImageFormat.gif
  else if s = "tiff" then some ImageFormat.tiff
  else if s = "svg" then some ImageFormat.svg
  else if s = "auto" then some ImageFormat.auto
  else none

/-- Height validation condition: height non-null and out of range. -/
def badHeight (h : Option Int) : Bool :=
  match h with
  | some v => decide (v < 1 ∨ v > 8000)
  | none => false

/-- Update written to the controller-params context at accept time. -/
def acceptPatch (file : MulterFile) (req : OptimizeRequest)
    (newFilePath : String) : CPCPatch :=
  { file := some file, callbacks := some req.callbacks,
    width := some req.width, height := some req.height,
    quality := some req.quality, format := some req.format,
    newFilePath := some newFilePath }

/-- Options object built by the controller for the service call; the
height key is spread in only when non-null. -/
def acceptOptions (req : OptimizeRequest) : WorkerOptions :=
  { width := some req.width, height := req.height,
    quality := some req.quality.toNat,
    format := parseFormat (toLowerStr req.format) }

/-- Synchronous response value of the accept path. -/
def acceptResponse (env : Env) (req : OptimizeRequest) (file : MulterFile)
    (newFilePath optimizationId : String) : OptimizeResponse :=
  { message := "Image optimization started",
    originalSize := file.size,
    data := newFilePath,
    downloadUrl := newURL newFilePath env.urlBase,
    callbacksScheduled := req.callbacks.length,
    optimizationId := optimizationId }

/-- Store state after the accept-time context write. -/
def acceptStore (env : Env) (s : CtxStore) (req : OptimizeRequest)
    (file : MulterFile) (newFilePath optimizationId : String) (now : Nat) :
    CtxStore :=
  setControllerParamsContext s optimizationId
    (acceptPatch file req newFilePath) none env.dflt now

/-- ImageOptimizationController.optimizeImage, accept part: the
validations in source order, then the minted path and id stored in the
controller-params context before the response value is built. The
returned triple carries the updated store, the synchronous response,
and the arguments of the asynchronous dispatch. -/
def controllerAccept (env : Env) (s : CtxStore) (req : OptimizeRequest)
    (newFilePath optimizationId : String) (now : Nat) :
    Except String (CtxStore × OptimizeResponse × (MulterFile × WorkerOptions)) :=
  match req.file with
  | none => Except.error "No image file provided"
  | some file =>
      if req.width < 1 ∨ req.width > 8000 then
        Except.error "Width must be between 1 and 8000 pixels"
      else if badHeight req.height then
        Except.error "Height must be between 1 and 8000 pixels"
      else if req.quality < 1 ∨ req.quality > 100 then
        Except.error "Quality must be between 1 and 100"
      else if toLowerStr req.format ∉ supportedFormats then
        Except.error "Format must be one of the supported formats"
      else
        Except.ok
          (acceptStore env s req file newFilePath optimizationId now,
           acceptResponse env req file newFilePath optimizationId,
           (file, acceptOptions req))

/-- Full single-image run: accept, then the asynchronous arm at a
possibly later instant now2, whose rejection is swallowed by the
controller catch with a console log; the already-built response is
returned in either case. -/
def runOptimizeSingle (env : Env) (s : CtxStore) (req : OptimizeRequest)
    (newFilePath optimizationId : String) (now now2 : Nat) :
    Except String (OptimizeResponse × CtxStore × List Ev) :=
  match controllerAccept env s req newFilePath optimizationId now with
  | Except.error e => Except.error e
  | Except.ok (s1, resp, disp) =>
      match serviceOptimizeImage env s1 disp.1 disp.2 optimizationId now2 with
      | (s2, evs, Except.error e) =>
          Except.ok (resp, s2,
            evs ++ [Ev.logError ("Error optimizing image: " ++ e)])
      | (s2, evs, Except.ok _) => Except.ok (resp, s2, evs)

/-- Lemma: a get at any instant not later than the expiry still sees a
value stored earlier. -/
theorem get_set_later {α : Type} (s : TTLStore α) (k : String) (v : α)
    (ttl : Option Nat) (dflt now now2 : Nat)
    (h : now2 ≤ now + effTTL ttl dflt * 1000) :
    (s.set k v ttl dflt now).get k now2
      = (some v, s.set k v ttl dflt now) := by
  have hget : mapGet (s.set k v ttl dflt now).storage k
      = some ⟨v, now + effTTL ttl dflt * 1000⟩ := by
    simp [TTLStore.set, mapGet_mapSet_self]
  have hnex : ¬ (now + effTTL ttl dflt * 1000 < now2) := by omega
  simp [TTLStore.get, hget, hnex]

theorem badHeight_iff (h : Option Int) :
    badHeight h = true ↔ ∃ v, h = some v ∧ (v < 1 ∨ v > 8000) := by
  cases h with
  | none => simp [badHeight]
  | some v => simp [badHeight]

/-- Lemma: shape of a successful accept. -/
theorem controllerAccept_ok (env : Env) (s : CtxStore)
    (req : OptimizeRequest) (newFilePath optimizationId : String)
    (now : Nat) (file : MulterFile)
    (hf : req.file = some file)
    (hw : ¬ (req.width < 1 ∨ req.width > 8000))
    (hh : badHeight req.height = false)
    (hq : ¬ (req.quality < 1 ∨ req.quality > 100))
    (hsup : toLowerStr req.format ∈ supportedFormats) :
    controllerAccept env s req newFilePath optimizationId now
      = Except.ok
          (acceptStore env s req file newFilePath optimizationId now,
           acceptResponse env req file newFilePath optimizationId,
           (file, acceptOptions req)) := by
  unfold controllerAccept
  simp only [hf]
  rw [if_neg hw, if_neg (by simp [hh]), if_neg hq,
      if_neg (fun hn => hn hsup)]

/-- C2: for every accepted single-image request, the synchronous
response carries the freshly minted optimizationId, its data field
equals the minted newFilePath, its downloadUrl is the configured base
URL combined with that newFilePath, and the ok value pairs the response
with the store already holding the controller-params context containing
that newFilePath under the optimizationId, so the write precedes the
return of the response value. -/
theorem claim_C2_accept_contract (env : Env) (s : CtxStore)
    (req : OptimizeRequest) (newFilePath optimizationId : String)
    (now : Nat) (file : MulterFile)
    (hf : req.file = some file)
    (hw : ¬ (req.width < 1 ∨ req.width > 8000))
    (hh : badHeight req.height = false)
    (hq : ¬ (req.quality < 1 ∨ req.quality > 100))
    (hsup : toLowerStr req.format ∈ supportedFormats) :
    controllerAccept env s req newFilePath optimizationId now
      = Except.ok
          (acceptStore env s req file newFilePath optimizationId now,
           acceptResponse env req file newFilePath optimizationId,
           (file, acceptOptions req)) ∧
    (acceptResponse env req file newFilePath optimizationId).optimizationId
        = optimizationId ∧
    (acceptResponse env req file newFilePath optimizationId).data
        = newFilePath ∧
    (acceptResponse env req file newFilePath optimizationId).downloadUrl
        = newURL newFilePath env.urlBase ∧
    ∃ ctx,
      (getControllerParamsContext
          (acceptStore env s req file newFilePath optimizationId now)
          optimizationId now).1 = some ctx ∧
      ctx.newFilePath = some newFilePath ∧
      ctx.file = some file := by
  refine ⟨controllerAccept_ok env s req newFilePath optimizationId now
            file hf hw hh hq hsup, rfl, rfl, rfl, ?_⟩
  refine ⟨mergeCPC (getControllerParamsContext s optimizationId now).1
            (acceptPatch file req newFilePath) optimizationId now, ?_, rfl, rfl⟩
  unfold acceptStore
  exact getCPC_setCPC s optimizationId _ none env.dflt now

/-- Concrete file, environment and request used by the witnesses. -/
def demoFile : MulterFile :=
  { path := "tmp-u1", originalname := "photo.jpg", size := 2048 }

def demoEnv : Env :=
  { readFile := fun _ => some [5, 5, 5]
    codec := c1WitCodec
    s3Ok := fun _ _ => true
    urlBase := "https://cdn.example.com/"
    dflt := 3600 }

def demoReq : OptimizeRequest :=
  { file := some demoFile, callbacks := [], width := 800, height := none,
    quality := 80, format := "jpeg" }

/-- Witness for C2 at a concrete valid request. -/
theorem claim_C2_accept_contract_witness :
    controllerAccept demoEnv TTLStore.empty demoReq
        "optimized/a.jpeg" "oid2" 0
      = Except.ok
          (acceptStore demoEnv TTLStore.empty demoReq demoFile
             "optimized/a.jpeg" "oid2" 0,
           acceptResponse demoEnv demoReq demoFile "optimized/a.jpeg" "oid2",
           (demoFile, acceptOptions demoReq)) ∧
    (acceptResponse demoEnv demoReq demoFile
        "optimized/a.jpeg" "oid2").optimizationId = "oid2" ∧
    (acceptResponse demoEnv demoReq demoFile
        "optimized/a.jpeg" "oid2").data = "optimized/a.jpeg" ∧
    (acceptResponse demoEnv demoReq demoFile
        "optimized/a.jpeg" "oid2").downloadUrl
        = newURL "optimized/a.jpeg" demoEnv.urlBase ∧
    ∃ ctx,
      (getControllerParamsContext
          (acceptStore demoEnv TTLStore.empty demoReq demoFile
             "optimized/a.jpeg" "oid2" 0) "oid2" 0).1 = some ctx ∧
      ctx.newFilePath = some "optimized/a.jpeg" ∧
      ctx.file = some demoFile :=
  claim_C2_accept_contract demoEnv TTLStore.empty demoReq
    "optimized/a.jpeg" "oid2" 0 demoFile rfl (by decide) (by decide)
    (by decide) (by decide)

/-- C9: the accept path rejects with a structured client error, before
any context write or dispatch, exactly when the file is missing, the
width is outside 1..8000, the height is non-null and outside 1..8000,
the quality is outside 1..100, or the lowercased format is not a member
of the supported format enum; for every request satisfying all the
bounds no validation error is raised. -/
theorem claim_C9_validation (env : Env) (s : CtxStore)
    (req : OptimizeRequest) (newFilePath optimizationId : String)
    (now : Nat) :
    (∃ e, controllerAccept env s req newFilePath optimizationId now
        = Except.error e)
      ↔ (req.file = none ∨
         (req.width < 1 ∨ req.width > 8000) ∨
         (∃ v, req.height = some v ∧ (v < 1 ∨ v > 8000)) ∨
         (req.quality < 1 ∨ req.quality > 100) ∨
         toLowerStr req.format ∉ supportedFormats) := by
  rcases hf : req.file with _ | file
  · exact iff_of_true
      ⟨"No image file provided", by simp [controllerAccept, hf]⟩
      (Or.inl rfl)
  · by_cases h1 : req.width < 1 ∨ req.width > 8000
    · refine iff_of_true
        ⟨"Width must be between 1 and 8000 pixels", ?_⟩
        (Or.inr (Or.inl h1))
      simp only [controllerAccept, hf]
      rw [if_pos h1]
    · by_cases h2 : badHeight req.height = true
      · refine iff_of_true
          ⟨"Height must be between 1 and 8000 pixels", ?_⟩
          (Or.inr (Or.inr (Or.inl ((badHeight_iff req.height).1 h2))))
        simp only [controllerAccept, hf]
        rw [if_neg h1, if_pos h2]
      · by_cases h3 : req.quality < 1 ∨ req.quality > 100
        · refine iff_of_true
            ⟨"Quality must be between 1 and 100", ?_⟩
            (Or.inr (Or.inr (Or.inr (Or.inl h3))))
          simp only [controllerAccept, hf]
          rw [if_neg h1, if_neg (by simp [h2]), if_pos h3]
        · by_cases h4 : toLowerStr req.format ∉ supportedFormats
          · refine iff_of_true
              ⟨"Format must be one of the supported formats", ?_⟩
              (Or.inr (Or.inr (Or.inr (Or.inr h4))))
            simp only [controllerAccept, hf]
            rw [if_neg h1, if_neg (by simp [h2]), if_neg h3, if_pos h4]
          · refine iff_of_false ?_ ?_
            · intro hex
              obtain ⟨e, he⟩ := hex
              rw [controllerAccept_ok env s req newFilePath optimizationId
                    now file hf h1 (by simpa using h2) h3
                    (by simpa using h4)] at he
              exact Except.noConfusion he
            · intro hbad
              rcases hbad with hb | hb | hb | hb | hb
              · exact Option.noConfusion hb
              · exact h1 hb
              · exact h2 ((badHeight_iff req.height).2 hb)
              · exact h3 hb
              · exact h4 hb

/-- Lemma: the context written at accept time is still found by the
asynchronous arm at any instant now2 within the context ttl. -/
theorem getCPC_acceptStore (env : Env) (s : CtxStore)
    (req : OptimizeRequest) (file : MulterFile)
    (newFilePath optimizationId : String) (now now2 : Nat)
    (hlive : now2 ≤ now + env.dflt * 1000) :
    getControllerParamsContext
        (acceptStore env s req file newFilePath optimizationId now)
        optimizationId now2
      = (some (mergeCPC (getControllerParamsContext s optimizationId now).1
            (acceptPatch file req newFilePath) optimizationId now),
         acceptStore env s req file newFilePath optimizationId now) := by
  unfold acceptStore setControllerParamsContext getControllerParamsContext
  exact get_set_later _ _ _ _ _ _ _ hlive

/-- C4 amended: when the worker fails on an accepted single-image
request (all validations passed, the temp file was read, the worker
result reports failure), the already-committed HTTP 200 response value
is unaffected and is still the accept-time response, and the whole
trace of the asynchronous arm is one logged error: in particular
BlobSink.put is never called, but no SSE Error event is emitted and no
callback with status error is fired either; the failure is only
logged. -/
theorem claim_C4_worker_failure (env : Env) (s : CtxStore)
    (req : OptimizeRequest) (newFilePath optimizationId : String)
    (now now2 : Nat) (file : MulterFile) (bytes : Buf)
    (hf : req.file = some file)
    (hw : ¬ (req.width < 1 ∨ req.width > 8000))
    (hh : badHeight req.height = false)
    (hq : ¬ (req.quality < 1 ∨ req.quality > 100))
    (hsup : toLowerStr req.format ∈ supportedFormats)
    (hlive : now2 ≤ now + env.dflt * 1000)
    (hread : env.readFile file.path = some bytes)
    (hfail : (optimizeImageWorker env.codec
        { imageBuffer := bytes, options := acceptOptions req,
          originalName := file.originalname }).success = false) :
    runOptimizeSingle env s req newFilePath optimizationId now now2
      = Except.ok
          (acceptResponse env req file newFilePath optimizationId,
           acceptStore env s req file newFilePath optimizationId now,
           [Ev.logError ("Error optimizing image: "
             ++ ("Worker optimization failed: "
             ++ ((optimizeImageWorker env.codec
                  { imageBuffer := bytes, options := acceptOptions req,
                    originalName := file.originalname }).error.getD "")))]) := by
  have hacc := controllerAccept_ok env s req newFilePath optimizationId
    now file hf hw hh hq hsup
  have hget := getCPC_acceptStore env s req file newFilePath
    optimizationId now now2 hlive
  have hsvc : serviceOptimizeImage env
      (acceptStore env s req file newFilePath optimizationId now)
      file (acceptOptions req) optimizationId now2
      = (acceptStore env s req file newFilePath optimizationId now, [],
         Except.error ("Worker optimization failed: "
           ++ ((optimizeImageWorker env.codec
                { imageBuffer := bytes, options := acceptOptions req,
                  originalName := file.originalname }).error.getD ""))) := by
    simp only [serviceOptimizeImage, hget, hread, hfail]
    simp [hfail]
  simp only [runOptimizeSingle, hacc, hsvc, List.nil_append]

/-- Environment whose codec rejects every jpeg encode, so that the
worker fails on jpeg requests. -/
def failEnv : Env :=
  { readFile := fun _ => some [5]
    codec := c6Codec
    s3Ok := fun _ _ => true
    urlBase := "https://cdn.example.com/"
    dflt := 3600 }

/-- Witness for amended C4: a concrete accepted request whose worker
run fails. -/
theorem claim_C4_worker_failure_witness :
    runOptimizeSingle failEnv TTLStore.empty demoReq
        "optimized/b.jpeg" "oid4" 0 0
      = Except.ok
          (acceptResponse failEnv demoReq demoFile "optimized/b.jpeg" "oid4",
           acceptStore failEnv TTLStore.empty demoReq demoFile
             "optimized/b.jpeg" "oid4" 0,
           [Ev.logError ("Error optimizing image: "
             ++ ("Worker optimization failed: "
             ++ ((optimizeImageWorker failEnv.codec
                  { imageBuffer := [5], options := acceptOptions demoReq,
                    originalName := demoFile.originalname }).error.getD "")))]) :=
  claim_C4_worker_failure failEnv TTLStore.empty demoReq
    "optimized/b.jpeg" "oid4" 0 0 demoFile [5] rfl (by decide) (by decide)
    (by decide) (by decide) (by decide) rfl (by decide)

/-- C4 counterexample: a concrete accepted request whose worker fails
produces an ok response, and its full asynchronous trace contains no
SSE event and no callback notification at all, refuting the claimed
SSE Error emission and the claimed single callback with status error;
the absence of any blob put and the intact response agree with the rest
of the claim. -/
theorem claim_C4_counterexample :
    ((runOptimizeSingle failEnv TTLStore.empty demoReq
        "optimized/c.jpeg" "oid5" 0 0).toOption.map
      (fun out => (out.1.optimizationId,
                   out.2.2.filter Ev.isNotify,
                   out.2.2.filter Ev.isSse,
                   out.2.2.filter Ev.isS3Put)))
      = some ("oid5", [], [], []) := by decide

/-- C8 amended: when the controller-params context for an in-flight
optimizationId is absent at the post-worker upload step, uploadFile
logs one error and returns normally: the put is skipped silently, the
task is not marked failed through SSE or callback, and the caller
continues as if successful. -/
theorem claim_C8_missing_context_silent (env : Env) (s : CtxStore)
    (buf : Buf) (optimizationId mime : String) (now : Nat)
    (h : (getControllerParamsContext s optimizationId now).1 = none) :
    uploadFile env s buf optimizationId mime now
      = ((getControllerParamsContext s optimizationId now).2,
         [Ev.logError ("Context not found id: " ++ optimizationId)]) ∧
    ((uploadFile env s buf optimizationId mime now).2.filter Ev.isS3Put
        = []) ∧
    ((uploadFile env s buf optimizationId mime now).2.filter Ev.isNotify
        = []) ∧
    ((uploadFile env s buf optimizationId mime now).2.filter Ev.isSse
        = []) := by
  rcases hg : getControllerParamsContext s optimizationId now with ⟨o, s2⟩
  rw [hg] at h
  simp only at h
  subst h
  have hu : uploadFile env s buf optimizationId mime now
      = (s2, [Ev.logError ("Context not found id: " ++ optimizationId)]) := by
    simp only [uploadFile, hg]
  refine ⟨?_, ?_, ?_, ?_⟩ <;>
    simp [hu, hg, Ev.isS3Put, Ev.isNotify, Ev.isSse]

/-- Witness for amended C8: the empty store has no context for the
id. -/
theorem claim_C8_missing_context_silent_witness :
    uploadFile failEnv TTLStore.empty [1] "ghost" "image/jpeg" 0
      = ((getControllerParamsContext TTLStore.empty "ghost" 0).2,
         [Ev.logError ("Context not found id: " ++ "ghost")]) ∧
    ((uploadFile failEnv TTLStore.empty [1] "ghost" "image/jpeg" 0).2.filter
        Ev.isS3Put = []) ∧
    ((uploadFile failEnv TTLStore.empty [1] "ghost" "image/jpeg" 0).2.filter
        Ev.isNotify = []) ∧
    ((uploadFile failEnv TTLStore.empty [1] "ghost" "image/jpeg" 0).2.filter
        Ev.isSse = []) :=
  claim_C8_missing_context_silent failEnv TTLStore.empty [1] "ghost"
    "image/jpeg" 0 rfl

/-- C8 counterexample: at a concrete missing-context upload the trace
is exactly one logged error and contains neither an SSE event nor a
callback notification, refuting the claim that the task is marked
failed via SSE and/or callback and never silently skipped. -/
theorem claim_C8_counterexample :
    (uploadFile failEnv TTLStore.empty [1] "lost" "image/jpeg" 0).2
      = [Ev.logError "Context not found id: lost"] ∧
    ((uploadFile failEnv TTLStore.empty [1] "lost" "image/jpeg" 0).2.filter
        Ev.isNotify = []) ∧
    ((uploadFile failEnv TTLStore.empty [1] "lost" "image/jpeg" 0).2.filter
        Ev.isSse = []) := by decide

/-! ## ImageOptimizationService.batchOptimizeImages -/

/-- Promise.all over the per-file temp reads: a single rejection
rejects the whole preparation. -/
def allReads (env : Env) (files : List MulterFile) : Option (List Buf) :=
  match files with
  | [] => some []
  | f :: rest =>
      match env.readFile f.path, allReads env rest with
      | some b, some bs => some (b :: bs)
      | _, _ => none

/-- Result entry produced for index i: a missing newFilePaths array
raises inside the per-index try (TypeError on indexing undefined), a
failed worker result yields the error entry, a successful one the
success entry carrying newFilePaths at i. -/
def batchEntry (cp : ControllerParamsContext) (i : Nat) (file : MulterFile)
    (wr : OptimizationResult) : BatchResultEntry :=
  match cp.newFilePaths with
  | none =>
      { originalName := file.originalname,
        error := some "TypeError: newFilePaths is not defined",
        success := false }
  | some nfps =>
      if wr.success then
        { originalName := file.originalname,
          originalSize := some wr.originalSize,
          optimizedSize := some wr.optimizedSize,
          newFilePath := nfps.get? i,
          success := true }
      else
        { originalName := file.originalname, error := wr.error,
          success := false }

/-- Update written for the per-index sub-context: the spread of the
full parent context with newFilePath overridden. -/
def spreadPatch (cp : ControllerParamsContext) (nfp : Option String) :
    CPCPatch :=
  { clientId := some cp.clientId, file := cp.file, files := cp.files,
    callbacks := cp.callbacks, width := cp.width, height := cp.height,
    quality := cp.quality, format := cp.format,
    newFilePath := nfp, newFilePaths := cp.newFilePaths }

/-- Store update and trace of the per-index arm: nothing for a missing
newFilePaths array or a failed worker result; for a success, the
sub-context write under id_i followed by the upload. -/
def processBatchItem (env : Env) (cp : ControllerParamsContext)
    (optimizationId : String) (options : WorkerOptions) (now : Nat)
    (s : CtxStore) (i : Nat) (_file : MulterFile) (wr : OptimizationResult) :
    CtxStore × List Ev :=
  match cp.newFilePaths with
  | none => (s, [])
  | some nfps =>
      if wr.success then
        uploadFile env
          (setControllerParamsContext s
            (optimizationId ++ "_" ++ toString i)
            (spreadPatch cp (nfps.get? i)) none env.dflt now)
          wr.optimizedBuffer (optimizationId ++ "_" ++ toString i)
          (mimeOf options.format) now
      else (s, [])

/-- Sequentialization of the Promise.all over the per-index arms,
threading the store and collecting trace and result entries in index
order. -/
def batchLoop (env : Env) (cp : ControllerParamsContext)
    (optimizationId : String) (options : WorkerOptions) (now : Nat) :
    Nat → CtxStore → List (MulterFile × OptimizationResult) →
    CtxStore × List Ev × List BatchResultEntry
  | _, s, [] => (s, [], [])
  | i, s, (f, wr) :: rest =>
      let step := processBatchItem env cp optimizationId options now s i f wr
      let r := batchLoop env cp optimizationId options now (i + 1) step.1 rest
      (r.1, step.2 ++ r.2.1, batchEntry cp i f wr :: r.2.2)

/-- Pure view of the result entries of the loop. -/
def batchEntriesFrom (cp : ControllerParamsContext) :
    Nat → List (MulterFile × OptimizationResult) → List BatchResultEntry
  | _, [] => []
  | i, (f, wr) :: rest => batchEntry cp i f wr :: batchEntriesFrom cp (i + 1) rest

/-- Consolidated callback payload of the batch path. -/
def batchPayload (optimizationId : String) (files : List MulterFile)
    (results : List BatchResultEntry) : NotifyPayload :=
  { optimizationId := optimizationId, typ := some "batch",
    results := some results,
    totalFiles := some files.length,
    successfulFiles := some (results.filter (fun r => r.success)).length,
    failedFiles := some (results.filter (fun r => !r.success)).length }

/-- Per-index items handed to the loop: each file paired with its
worker result. -/
def batchItems (env : Env) (files : List MulterFile) (bufs : List Buf)
    (options : WorkerOptions) : List (MulterFile × OptimizationResult) :=
  files.zip (((files.zip bufs).map (fun fb =>
    ({ imageBuffer := fb.2, options := options,
       originalName := fb.1.originalname } : OptimizationTask))).map
    (optimizeImageWorker env.codec))

/-- ImageOptimizationService.batchOptimizeImages: requires the context,
prepares all tasks (one read failure aborts everything), runs the
worker per task, processes uploads per index, and fires the single
consolidated callback when callbacks are registered. -/
def serviceBatchOptimizeImages (env : Env) (s : CtxStore)
    (files : List MulterFile) (optimizationId : String)
    (options : WorkerOptions) (now : Nat) :
    CtxStore × List Ev × Except String Unit :=
  match getControllerParamsContext s optimizationId now with
  | (none, s1) => (s1, [], Except.error "Controller parameters not found")
  | (some cp, s1) =>
      match allReads env files with
      | none => (s1, [], Except.error "Failed to read image files")
      | some bufs =>
          let loop := batchLoop env cp optimizationId options now 0 s1
            (batchItems env files bufs options)
          match cp.callbacks with
          | some cbs =>
              if cbs.length > 0 then
                (loop.1,
                 loop.2.1 ++ [Ev.notify
                   (batchPayload optimizationId files loop.2.2)],
                 Except.ok ())
              else (loop.1, loop.2.1, Except.ok ())
          | none => (loop.1, loop.2.1, Except.ok ())

/-! ### Lemmas about the batch pipeline -/

theorem allReads_length (env : Env) (files : List MulterFile)
    (bufs : List Buf) (h : allReads env files = some bufs) :
    bufs.length = files.length := by
  induction files generalizing bufs with
  | nil =>
      simp only [allReads, Option.some.injEq] at h
      subst h
      rfl
  | cons f rest ih =>
      simp only [allReads] at h
      rcases hr : env.readFile f.path with _ | b
      · rw [hr] at h; exact absurd h (by simp)
      · rw [hr] at h
        rcases ha : allReads env rest with _ | bs
        · rw [ha] at h; exact absurd h (by simp)
        · rw [ha] at h
          simp only [Option.some.injEq] at h
          subst h
          simp [ih bs ha]

theorem uploadFile_filter_notify (env : Env) (s : CtxStore) (buf : Buf)
    (id mime : String) (now : Nat) :
    (uploadFile env s buf id mime now).2.filter Ev.isNotify = [] := by
  rcases hg : getControllerParamsContext s id now with ⟨o, s2⟩
  rcases o with _ | ctx
  · simp [uploadFile, hg, Ev.isNotify]
  · by_cases h : env.s3Ok ctx.newFilePath buf <;>
      simp [uploadFile, hg, h, Ev.isNotify]

theorem processBatchItem_filter_notify (env : Env)
    (cp : ControllerParamsContext) (optimizationId : String)
    (options : WorkerOptions) (now : Nat) (s : CtxStore) (i : Nat)
    (file : MulterFile) (wr : OptimizationResult) :
    (processBatchItem env cp optimizationId options now s i file wr).2.filter
        Ev.isNotify = [] := by
  rcases hn : cp.newFilePaths with _ | nfps
  · simp [processBatchItem, hn]
  · by_cases h : wr.success = true
    · simp [processBatchItem, hn, h, uploadFile_filter_notify]
    · simp [processBatchItem, hn, h]

theorem batchLoop_results (env : Env) (cp : ControllerParamsContext)
    (optimizationId : String) (options : WorkerOptions) (now : Nat)
    (items : List (MulterFile × OptimizationResult)) : ∀ (i : Nat) (s : CtxStore),
    (batchLoop env cp optimizationId options now i s items).2.2
      = batchEntriesFrom cp i items := by
  induction items with
  | nil => intro i s; rfl
  | cons fw rest ih =>
      intro i s
      obtain ⟨f, wr⟩ := fw
      simp only [batchLoop, batchEntriesFrom]
      rw [ih]

theorem batchLoop_filter_notify (env : Env) (cp : ControllerParamsContext)
    (optimizationId : String) (options : WorkerOptions) (now : Nat)
    (items : List (MulterFile × OptimizationResult)) : ∀ (i : Nat) (s : CtxStore),
    (batchLoop env cp optimizationId options now i s items).2.1.filter
        Ev.isNotify = [] := by
  induction items with
  | nil => intro i s; rfl
  | cons fw rest ih =>
      intro i s
      obtain ⟨f, wr⟩ := fw
      simp only [batchLoop]
      rw [List.filter_append, processBatchItem_filter_notify, ih]
      rfl

theorem batchEntriesFrom_length (cp : ControllerParamsContext)
    (items : List (MulterFile × OptimizationResult)) : ∀ i : Nat,
    (batchEntriesFrom cp i items).length = items.length := by
  induction items with
  | nil => intro i; rfl
  | cons fw rest ih =>
      intro i
      obtain ⟨f, wr⟩ := fw
      simp [batchEntriesFrom, ih]

theorem batchEntriesFrom_get (cp : ControllerParamsContext)
    (items : List (MulterFile × OptimizationResult)) : ∀ (i j : Nat),
    (batchEntriesFrom cp i items).get? j
      = (items.get? j).map (fun fw => batchEntry cp (i + j) fw.1 fw.2) := by
  induction items with
  | nil => intro i j; simp [batchEntriesFrom]
  | cons fw rest ih =>
      intro i j
      obtain ⟨f, wr⟩ := fw
      cases j with
      | zero => simp [batchEntriesFrom]
      | succ j2 =>
          simp only [batchEntriesFrom, List.get?_cons_succ, ih (i + 1) j2,
            Nat.add_succ, Nat.succ_add]

theorem zip_get {α β : Type} (l1 : List α) : ∀ (l2 : List β) (j : Nat)
    (a : α) (b : β), l1.get? j = some a → l2.get? j = some b →
    (l1.zip l2).get? j = some (a, b) := by
  induction l1 with
  | nil => intro l2 j a b h1 _; simp at h1
  | cons x r1 ih =>
      intro l2 j a b h1 h2
      cases l2 with
      | nil => simp at h2
      | cons y r2 =>
          cases j with
          | zero =>
              simp only [List.get?_cons_zero, Option.some.injEq] at h1 h2
              simp [List.zip_cons_cons, h1, h2]
          | succ j2 =>
              simp only [List.get?_cons_succ] at h1 h2
              simpa [List.zip_cons_cons] using ih r2 j2 a b h1 h2

theorem batchItems_length (env : Env) (files : List MulterFile)
    (bufs : List Buf) (options : WorkerOptions)
    (h : bufs.length = files.length) :
    (batchItems env files bufs options).length = files.length := by
  simp [batchItems, List.length_zip, List.length_map, h]

theorem batchItems_get (env : Env) (files : List MulterFile)
    (bufs : List Buf) (options : WorkerOptions) (j : Nat)
    (f : MulterFile) (b : Buf)
    (hf : files.get? j = some f) (hb : bufs.get? j = some b) :
    (batchItems env files bufs options).get? j
      = some (f, optimizeImageWorker env.codec
          { imageBuffer := b, options := options,
            originalName := f.originalname }) := by
  have hz : (files.zip bufs).get? j = some (f, b) :=
    zip_get files bufs j f b hf hb
  have hm : ((((files.zip bufs).map (fun fb =>
      ({ imageBuffer := fb.2, options := options,
         originalName := fb.1.originalname } : OptimizationTask))).map
      (optimizeImageWorker env.codec))).get? j
      = some (optimizeImageWorker env.codec
          { imageBuffer := b, options := options,
            originalName := f.originalname }) := by
    rw [List.get?_map, List.get?_map, hz]
    rfl
  exact zip_get files _ j f _ hf hm

theorem uploadFile_emits_s3Put (env : Env) (s : CtxStore) (buf : Buf)
    (id mime : String) (now : Nat) (ctx : ControllerParamsContext)
    (h : (getControllerParamsContext s id now).1 = some ctx) :
    Ev.s3Put ctx.newFilePath mime buf ∈ (uploadFile env s buf id mime now).2 := by
  rcases hg : getControllerParamsContext s id now with ⟨o, s2⟩
  rw [hg] at h
  simp only at h
  subst h
  by_cases hs3 : env.s3Ok ctx.newFilePath buf <;>
    simp [uploadFile, hg, hs3]

theorem processBatchItem_emits_s3Put (env : Env)
    (cp : ControllerParamsContext) (optimizationId : String)
    (options : WorkerOptions) (now : Nat) (s : CtxStore) (i : Nat)
    (file : MulterFile) (wr : OptimizationResult) (nfps : List String)
    (nfp : String)
    (hn : cp.newFilePaths = some nfps) (hi : nfps.get? i = some nfp)
    (hsucc : wr.success = true) :
    Ev.s3Put (some nfp) (mimeOf options.format) wr.optimizedBuffer
      ∈ (processBatchItem env cp optimizationId options now s i file wr).2 := by
  have hctx := getCPC_setCPC s (optimizationId ++ "_" ++ toString i)
    (spreadPatch cp (nfps.get? i)) none env.dflt now
  have hmem := uploadFile_emits_s3Put env
    (setControllerParamsContext s (optimizationId ++ "_" ++ toString i)
      (spreadPatch cp (nfps.get? i)) none env.dflt now)
    wr.optimizedBuffer (optimizationId ++ "_" ++ toString i)
    (mimeOf options.format) now _ hctx
  have hkey : (mergeCPC (getControllerParamsContext s
      (optimizationId ++ "_" ++ toString i) now).1
      (spreadPatch cp (nfps.get? i)) (optimizationId ++ "_" ++ toString i)
      now).newFilePath = some nfp := by
    simp only [mergeCPC, spreadPatch, hi, jsOr]
  rw [hkey] at hmem
  simpa [processBatchItem, hn, hsucc] using hmem

theorem batchLoop_emits_s3Put (env : Env) (cp : ControllerParamsContext)
    (optimizationId : String) (options : WorkerOptions) (now : Nat)
    (items : List (MulterFile × OptimizationResult)) :
    ∀ (i : Nat) (s : CtxStore) (j : Nat) (f : MulterFile)
      (wr : OptimizationResult) (nfps : List String) (nfp : String),
      items.get? j = some (f, wr) →
      cp.newFilePaths = some nfps →
      nfps.get? (i + j) = some nfp →
      wr.success = true →
      Ev.s3Put (some nfp) (mimeOf options.format) wr.optimizedBuffer
        ∈ (batchLoop env cp optimizationId options now i s items).2.1 := by
  induction items with
  | nil => intro i s j f wr nfps nfp hj; simp at hj
  | cons fw rest ih =>
      intro i s j f wr nfps nfp hj hn hi hsucc
      obtain ⟨f2, wr2⟩ := fw
      cases j with
      | zero =>
          simp only [List.get?_cons_zero, Option.some.injEq] at hj
          injection hj with hf2 hw2
          subst hf2
          subst hw2
          rw [Nat.add_zero] at hi
          simp only [batchLoop]
          rw [List.mem_append]
          exact Or.inl (processBatchItem_emits_s3Put env cp optimizationId
            options now s i f2 wr2 nfps nfp hn hi hsucc)
      | succ j2 =>
          simp only [List.get?_cons_succ] at hj
          simp only [batchLoop]
          rw [List.mem_append]
          refine Or.inr (ih (i + 1) _ j2 f wr nfps nfp hj hn ?_ hsucc)
          have he : (i + 1) + j2 = i + (j2 + 1) := by omega
          rw [he]
          exact hi

/-- C5 amended: for every batch whose controller-params context is
present with a non-empty callbacks list and a newFilePaths array, and
whose file reads all succeed at task preparation, the run completes,
exactly one consolidated callback is fired and it is the last event,
the results array has exactly one entry per file preserving the input
order, and the entry and the upload of each index are determined by
that index alone, so a worker failure of one file does not prevent the
processing, upload or result entry of any sibling. The preparation
hypothesis is forced by the counterexample: one failed file read (or a
missing context) aborts the whole batch with no callback and no
sibling upload. -/
theorem claim_C5_batch_consolidated (env : Env) (s : CtxStore)
    (files : List MulterFile) (optimizationId : String)
    (options : WorkerOptions) (now : Nat)
    (cp : ControllerParamsContext) (cbs : List OptimizationCallback)
    (nfps : List String) (bufs : List Buf)
    (hcp : (getControllerParamsContext s optimizationId now).1 = some cp)
    (hcb : cp.callbacks = some cbs)
    (hne : cbs ≠ [])
    (hnf : cp.newFilePaths = some nfps)
    (hreads : allReads env files = some bufs) :
    (serviceBatchOptimizeImages env s files optimizationId
        options now).2.2 = Except.ok () ∧
    (serviceBatchOptimizeImages env s files optimizationId
        options now).2.1.filter Ev.isNotify
      = [Ev.notify (batchPayload optimizationId files
          (batchEntriesFrom cp 0 (batchItems env files bufs options)))] ∧
    (serviceBatchOptimizeImages env s files optimizationId
        options now).2.1.getLast?
      = some (Ev.notify (batchPayload optimizationId files
          (batchEntriesFrom cp 0 (batchItems env files bufs options)))) ∧
    (batchEntriesFrom cp 0 (batchItems env files bufs options)).length
      = files.length ∧
    (∀ (j : Nat) (f : MulterFile) (b : Buf),
      files.get? j = some f → bufs.get? j = some b →
      (batchEntriesFrom cp 0 (batchItems env files bufs options)).get? j
        = some (batchEntry cp j f (optimizeImageWorker env.codec
            { imageBuffer := b, options := options,
              originalName := f.originalname }))) ∧
    (∀ (j : Nat) (f : MulterFile) (b : Buf) (nfp : String),
      files.get? j = some f → bufs.get? j = some b →
      nfps.get? j = some nfp →
      (optimizeImageWorker env.codec
        { imageBuffer := b, options := options,
          originalName := f.originalname }).success = true →
      Ev.s3Put (some nfp) (mimeOf options.format)
        (optimizeImageWorker env.codec
          { imageBuffer := b, options := options,
            originalName := f.originalname }).optimizedBuffer
        ∈ (serviceBatchOptimizeImages env s files optimizationId
            options now).2.1) := by
  rcases hg : getControllerParamsContext s optimizationId now with ⟨o, s1⟩
  rw [hg] at hcp
  simp only at hcp
  subst hcp
  have hlen0 : cbs.length > 0 := by
    cases cbs with
    | nil => exact absurd rfl hne
    | cons c r => simp
  have hrun : serviceBatchOptimizeImages env s files optimizationId options now
      = ((batchLoop env cp optimizationId options now 0 s1
            (batchItems env files bufs options)).1,
         (batchLoop env cp optimizationId options now 0 s1
            (batchItems env files bufs options)).2.1
           ++ [Ev.notify (batchPayload optimizationId files
                (batchEntriesFrom cp 0 (batchItems env files bufs options)))],
         Except.ok ()) := by
    simp only [serviceBatchOptimizeImages, hg, hreads, hcb]
    rw [if_pos hlen0, batchLoop_results]
  refine ⟨by rw [hrun], ?_, ?_, ?_, ?_, ?_⟩
  · rw [hrun]
    simp only [List.filter_append,
      batchLoop_filter_notify env cp optimizationId options now _ 0 s1]
    simp [Ev.isNotify]
  · rw [hrun]
    exact List.getLast?_concat _
  · rw [batchEntriesFrom_length,
      batchItems_length env files bufs options
        (allReads_length env files bufs hreads)]
  · intro j f b hf2 hb2
    rw [batchEntriesFrom_get,
      batchItems_get env files bufs options j f b hf2 hb2]
    simp
  · intro j f b nfp hf2 hb2 hnp hsucc
    rw [hrun]
    simp only [List.mem_append]
    refine Or.inl (batchLoop_emits_s3Put env cp optimizationId options now
      _ 0 s1 j f _ nfps nfp
      (batchItems_get env files bufs options j f b hf2 hb2) hnf
      (by simpa using hnp) hsucc)

/-- Files of the concrete batch runs. -/
def fileA : MulterFile := { path := "a", originalname := "a.png", size := 3 }

def fileB : MulterFile := { path := "b", originalname := "b.png", size := 4 }

/-- Worker options of the concrete batch runs. -/
def jpegOptions : WorkerOptions := { format := some ImageFormat.jpeg }

/-- Environment of the C5 witness: both reads succeed; the jpeg encode
rejects the bytes of the second file, so its worker task fails while
the first succeeds. -/
def batchEnvWit : Env :=
  { readFile := fun p => if p = "a" then some [1] else some [2]
    codec :=
      { resize := fun b _ _ => b
        jpeg := fun _ b => if b = [2] then none else some [7, 7]
        png := fun _ _ => none
        webp := fun _ _ => none
        avif := fun _ _ => none
        gif := fun _ => none
        tiff := fun _ _ => none }
    s3Ok := fun _ _ => true
    urlBase := "https://cdn.example.com/"
    dflt := 3600 }

/-- Store of the concrete batch runs: a context for the batch id with
one registered callback and two minted paths. -/
def batchStoreWit : CtxStore :=
  setControllerParamsContext TTLStore.empty "bid"
    { callbacks := some [{ url := "http://cb.example/hook" }],
      newFilePaths := some ["p0", "p1"] } none 3600 0

/-- Context value stored in batchStoreWit under bid. -/
def cpWit : ControllerParamsContext :=
  { clientId := "bid", createdAt := 0, updatedAt := 0,
    callbacks := some [{ url := "http://cb.example/hook" }],
    newFilePaths := some ["p0", "p1"] }

/-- Witness for amended C5: a concrete two-file batch whose second
worker task fails while the first is still uploaded and both entries
appear in the single consolidated callback. -/
theorem claim_C5_batch_consolidated_witness :
    (serviceBatchOptimizeImages batchEnvWit batchStoreWit [fileA, fileB]
        "bid" jpegOptions 0).2.2 = Except.ok () ∧
    (serviceBatchOptimizeImages batchEnvWit batchStoreWit [fileA, fileB]
        "bid" jpegOptions 0).2.1.filter Ev.isNotify
      = [Ev.notify (batchPayload "bid" [fileA, fileB]
          (batchEntriesFrom cpWit 0
            (batchItems batchEnvWit [fileA, fileB] [[1], [2]] jpegOptions)))] ∧
    (serviceBatchOptimizeImages batchEnvWit batchStoreWit [fileA, fileB]
        "bid" jpegOptions 0).2.1.getLast?
      = some (Ev.notify (batchPayload "bid" [fileA, fileB]
          (batchEntriesFrom cpWit 0
            (batchItems batchEnvWit [fileA, fileB] [[1], [2]] jpegOptions)))) ∧
    (batchEntriesFrom cpWit 0
        (batchItems batchEnvWit [fileA, fileB] [[1], [2]] jpegOptions)).length
      = ([fileA, fileB] : List MulterFile).length ∧
    (∀ (j : Nat) (f : MulterFile) (b : Buf),
      ([fileA, fileB] : List MulterFile).get? j = some f →
      ([[1], [2]] : List Buf).get? j = some b →
      (batchEntriesFrom cpWit 0
          (batchItems batchEnvWit [fileA, fileB] [[1], [2]] jpegOptions)).get? j
        = some (batchEntry cpWit j f (optimizeImageWorker batchEnvWit.codec
            { imageBuffer := b, options := jpegOptions,
              originalName := f.originalname }))) ∧
    (∀ (j : Nat) (f : MulterFile) (b : Buf) (nfp : String),
      ([fileA, fileB] : List MulterFile).get? j = some f →
      ([[1], [2]] : List Buf).get? j = some b →
      (["p0", "p1"] : List String).get? j = some nfp →
      (optimizeImageWorker batchEnvWit.codec
        { imageBuffer := b, options := jpegOptions,
          originalName := f.originalname }).success = true →
      Ev.s3Put (some nfp) (mimeOf jpegOptions.format)
        (optimizeImageWorker batchEnvWit.codec
          { imageBuffer := b, options := jpegOptions,
            originalName := f.originalname }).optimizedBuffer
        ∈ (serviceBatchOptimizeImages batchEnvWit batchStoreWit
            [fileA, fileB] "bid" jpegOptions 0).2.1) :=
  claim_C5_batch_consolidated batchEnvWit batchStoreWit [fileA, fileB]
    "bid" jpegOptions 0 cpWit [{ url := "http://cb.example/hook" }]
    ["p0", "p1"] [[1], [2]] (by decide) rfl (by decide) rfl (by decide)

/-- Environment of the C5 counterexample: the read of the second file
rejects. -/
def batchEnvCex : Env :=
  { readFile := fun p => if p = "a" then some [1] else none
    codec := c1WitCodec
    s3Ok := fun _ _ => true
    urlBase := "https://cdn.example.com/"
    dflt := 3600 }

/-- C5 counterexample: an accepted two-file batch with one registered
callback in which a single file read fails during task preparation: the
whole batch aborts, no consolidated callback is fired at all, and the
healthy sibling is never uploaded, refuting both the exactly-one
callback with N results and the sibling-independence parts of the
claim. -/
theorem claim_C5_counterexample :
    (((getControllerParamsContext batchStoreWit "bid" 0).1.bind
        ControllerParamsContext.callbacks).map List.length = some 1) ∧
    (serviceBatchOptimizeImages batchEnvCex batchStoreWit [fileA, fileB]
        "bid" jpegOptions 0).2.2.toOption = none ∧
    (serviceBatchOptimizeImages batchEnvCex batchStoreWit [fileA, fileB]
        "bid" jpegOptions 0).2.1.filter Ev.isNotify = [] ∧
    (serviceBatchOptimizeImages batchEnvCex batchStoreWit [fileA, fileB]
        "bid" jpegOptions 0).2.1.filter Ev.isS3Put = [] := by decide

end ImageOpt
